import Mathlib

/-!
Shallow embedding of the manifest orchestration layer of
`schematic_api/api/routes.py`: the `ManifestGeneration` pydantic model and its
methods, the `get_manifests_route` entry point, the `validate_manifest_route`
and `submit_manifest_route` pipelines, and the helper `parse_bool`.

External collaborators (schema graph engine, manifest generator, metadata
model, storage) are modelled as explicit function-valued parameters; Python
runtime exceptions (TypeError, ValueError, IndexError) are modelled by an
explicit error type threaded through `Except`.
-/

/-- Python runtime exceptions that the embedded code can raise. -/
inductive PyError where
  | typeError (msg : String)
  | valueError (msg : String)
  | indexError
deriving DecidableEq, Repr

/-- The `ManifestGeneration(BaseModel)` record of routes.py lines 206-214.
All optional fields are stored with their pydantic defaults already applied. -/
structure ManifestGeneration where
  schema_url : String
  access_token : String
  asset_view : String
  dataset_id : List String
  data_type : List String
  title : String
  output_format : String
  use_annotations : Bool
deriving DecidableEq, Repr

/-- Body of `ManifestGeneration._check_dataset_match_datatype_` (routes.py
lines 221-237): the two lengths are computed, then the bare comparison
`len_data_types == len_dataset_ids` is evaluated inside `try:`; the comparison
is a total expression whose value is discarded, so the `except:` branch never
runs and the method never raises, whatever the lengths are. -/
def checkDatasetMatchDatatype (mg : ManifestGeneration) : Except PyError Unit :=
  let len_data_types := mg.data_type.length
  let len_dataset_ids := mg.dataset_id.length
  let _ := decide (len_data_types = len_dataset_ids)
  Except.ok ()

/-- TypeError message raised by CPython when a method declared with only
`self` is invoked with two extra positional arguments. -/
def checkCallArityMsg : String :=
  "_check_dataset_match_datatype_() takes 1 positional argument but 3 were given"

/-- Semantics of a call to `mg._check_dataset_match_datatype_(...)` supplying
`extraPositionalArgs` positional arguments beyond the bound `self`: the method
is declared with no parameters besides `self` (routes.py line 221), so any
extra positional argument raises TypeError before the body runs. -/
def callCheckDatasetMatchDatatype (mg : ManifestGeneration)
    (extraPositionalArgs : Nat) : Except PyError Unit :=
  if extraPositionalArgs = 0 then checkDatasetMatchDatatype mg
  else Except.error (PyError.typeError checkCallArityMsg)

/-- ValueError message of routes.py lines 365-368 (quotes elided). -/
def allManifestsValueErrorMsg : String :=
  "When submitting all manifests as the data_type cannot also submit dataset_id. Please check your submission and try again."

/-- The guard at routes.py lines 362-368:
`try: data_type[0] != 'all manifests' except: raise ValueError(...)`.
The comparison result is discarded and string comparison is total, so the only
exception the tried expression can raise is the IndexError from `data_type[0]`
on an empty list, which the bare `except:` converts into the ValueError.  For
non-empty `data_type` the guard is a no-op, even when the first element is
"all manifests". -/
def checkAllManifestsGuard (data_type : List String) : Except PyError Unit :=
  match data_type with
  | [] => Except.error (PyError.valueError allManifestsValueErrorMsg)
  | _ :: _ => Except.ok ()

/-- `ManifestGeneration._get_manifest_title` (routes.py lines 239-252):
`if self.title:` is Python truthiness, i.e. the title string is non-empty. -/
def getManifestTitle (mg : ManifestGeneration) (single_data_type : String) :
    String :=
  if mg.title ≠ "" then mg.title ++ "." ++ single_data_type ++ ".manifest"
  else "Example." ++ single_data_type ++ ".manifest"

/-- The artifact produced by `create_single_manifest` (routes.py lines
296-326).  The external `ManifestGenerator` collaborator is opaque, so the
artifact is modelled as the record of exactly the request it was handed:
constructor arguments `path_to_json_ld`, `title`, `root`, `use_annotations`
and `get_manifest` arguments `dataset_id`, `output_format`, `access_token`. -/
structure Artifact where
  path_to_json_ld : String
  root : String
  title : String
  use_annotations : Bool
  dataset_id : String
  output_format : String
  access_token : String
deriving DecidableEq, Repr

/-- `ManifestGeneration.create_single_manifest` (routes.py lines 296-326);
the unsupplied defaults of the Python signature are the empty string.  The
excel case additionally wraps the file in a flask attachment response, which
is transport plumbing outside the modelled core. -/
def createSingleManifest (mg : ManifestGeneration)
    (single_data_type single_dataset_id title : String) : Artifact :=
  { path_to_json_ld := mg.schema_url
    root := single_data_type
    title := title
    use_annotations := mg.use_annotations
    dataset_id := single_dataset_id
    output_format := mg.output_format
    access_token := mg.access_token }

/-- Warning logged at routes.py line 270. -/
def warnExcelMultiDataType (t : String) : String :=
  "Currently we do not support returning multiple files as Excel format at once. Only " ++ t ++ " would get returned. "

/-- Warning logged at routes.py line 273. -/
def warnExcelDatasetId (ds t : String) : String :=
  "Currently we do not support returning multiple files as Excel format at once. Only manifest generated by using dataset id " ++ ds ++ " would get returned with title " ++ t

/-- Return value of `generate_manifest_and_collect_outputs`: the excel branch
returns a single attachment, the other branch a Python list of outputs. -/
inductive GenOutput where
  | single (a : Artifact)
  | many (arts : List Artifact)
deriving DecidableEq, Repr

/-- The `for i, dt in enumerate(data_type_lst)` loop of routes.py lines
280-291, carrying the running index `i`.  When `dataset_id` is non-empty
(Python truthiness) the loop reads `dataset_id[i]`, which raises IndexError
when `i` is out of range. -/
def collectOutputs (mg : ManifestGeneration) (dataset_id : List String) :
    Nat → List String → Except PyError (List Artifact)
  | _, [] => Except.ok []
  | i, dt :: rest =>
    let t := getManifestTitle mg dt
    if dataset_id = [] then
      (collectOutputs mg dataset_id (i + 1) rest).map
        (fun outs => createSingleManifest mg dt "" t :: outs)
    else
      match dataset_id[i]? with
      | none => Except.error PyError.indexError
      | some ds =>
        (collectOutputs mg dataset_id (i + 1) rest).map
          (fun outs => createSingleManifest mg dt ds t :: outs)

/-- `ManifestGeneration.generate_manifest_and_collect_outputs` (routes.py
lines 254-293), returning the produced output together with the list of
advisory warnings logged along the way (via `app.logger.warning`). -/
def generate_manifest_and_collect_outputs (mg : ManifestGeneration)
    (data_type_lst dataset_id : List String) :
    Except PyError (GenOutput × List String) :=
  if mg.output_format = "excel" then
    match data_type_lst with
    | [] => Except.error PyError.indexError
    | dt0 :: _ =>
      let t := getManifestTitle mg dt0
      let warns :=
        if 1 < data_type_lst.length then [warnExcelMultiDataType t] else []
      match dataset_id with
      | ds0 :: _ =>
        Except.ok (GenOutput.single (createSingleManifest mg dt0 ds0 t),
          warns ++ [warnExcelDatasetId ds0 t])
      | [] =>
        Except.ok (GenOutput.single (createSingleManifest mg dt0 "" t), warns)
  else
    (collectOutputs mg dataset_id 0 data_type_lst).map
      (fun outs => (GenOutput.many outs, []))

/-- The external schema graph engine (`SchemaGenerator` /
`get_digraph_by_edge_type`), keyed on the schema locator: for a given schema
it yields the node list of the digraph restricted to `requiresComponent`
edges (routes.py lines 372-374). -/
structure SchemaGraphEngine where
  requiresComponentNodes : String → List String

/-- Component resolution of routes.py lines 371-376: `data_type[0]` raises
IndexError on an empty list; when the FIRST element is "all manifests" the
component list is the node list of the requiresComponent digraph, otherwise
`data_type` is passed through unchanged. -/
def expandComponents (eng : SchemaGraphEngine) (schema_url : String)
    (data_type : List String) : Except PyError (List String) :=
  match data_type with
  | [] => Except.error PyError.indexError
  | dt0 :: _ =>
    if dt0 = "all manifests" then
      Except.ok (eng.requiresComponentNodes schema_url)
    else Except.ok data_type

/-- `ManifestGeneration.get_manifests_route` (routes.py lines 328-382).
`_load_config_` and `get_temp_jsonld` are external side effects whose result
feeds only the schema engine, which here is keyed on `schema_url` directly.
The final `if all_outputs: return all_outputs` makes a falsy output (an empty
list) fall through to Python's implicit `None`, modelled as `none`. -/
def get_manifests_route (eng : SchemaGraphEngine)
    (schema_url output_format access_token : String) (use_annotations : Bool)
    (dataset_id data_type : List String) (asset_view title : String) :
    Except PyError (Option GenOutput × List String) := do
  let mg : ManifestGeneration :=
    { schema_url := schema_url
      access_token := access_token
      asset_view := asset_view
      dataset_id := dataset_id
      data_type := data_type
      title := title
      output_format := output_format
      use_annotations := use_annotations }
  if dataset_id ≠ [] then
    -- source line 359 passes (dataset_id, data_type) positionally to a
    -- method that accepts no arguments beyond self
    let _ ← callCheckDatasetMatchDatatype mg 2
    let _ ← checkAllManifestsGuard data_type
  else
    pure ()
  let components ← expandComponents eng schema_url data_type
  let res ← generate_manifest_and_collect_outputs mg components dataset_id
  match res with
  | (GenOutput.many [], warns) => Except.ok (none, warns)
  | (out, warns) => Except.ok (some out, warns)

/-- Structured result of `validate_manifest_route`: a dict with exactly the
keys "errors" and "warnings" (routes.py line 446). -/
structure ValidationResult where
  errors : List String
  warnings : List String
deriving DecidableEq, Repr

/-- The external `MetadataModel.validateModelManifest` collaborator: from the
schema locator, the manifest path, the root node and the restrict_rules flag
it produces the `(errors, warnings)` pair. -/
structure MetadataModelEngine where
  validateModelManifest : String → String → String → Bool →
    List String × List String

/-- `validate_manifest_route` (routes.py lines 415-448).  The JSON-to-CSV
normalization is external file plumbing; its outcome enters as
`normalized_manifest` (the temp path on success).  `restrict_rules` arrives as
an optional boolean; `if not restrict_rules: restrict_rules = False` maps the
falsy values None and False to False and keeps True. -/
def validate_manifest_route (eng : MetadataModelEngine)
    (schema_url data_type : String) (restrict_rules : Option Bool)
    (normalized_manifest : Except PyError String) :
    Except PyError ValidationResult := do
  let rr : Bool :=
    match restrict_rules with
    | none => false
    | some b => b
  let temp_path ← normalized_manifest
  let ew := eng.validateModelManifest schema_url temp_path data_type rr
  Except.ok { errors := ew.1, warnings := ew.2 }

/-- ValueError message of `parse_bool` (routes.py lines 164-166). -/
def parseBoolErrorMsg : String :=
  "String boolean does not appear to be true or false. Please verify input."

/-- Python `str_bool.lower()`, modelled at the character level. -/
def pyLower (s : String) : List Char := s.data.map Char.toLower

/-- `parse_bool` (routes.py lines 158-166): `startswith` with a one-character
prefix is a test on the first character of the lowercased string (and is false
on the empty string). -/
def parse_bool (str_bool : String) : Except PyError Bool :=
  match pyLower str_bool with
  | [] => Except.error (PyError.valueError parseBoolErrorMsg)
  | c :: _ =>
    if c = 't' then Except.ok true
    else if c = 'f' then Except.ok false
    else Except.error (PyError.valueError parseBoolErrorMsg)

/-- The `use_schema_label` resolution of routes.py lines 472-476: the literal
sentinel string "None" means True; every other string goes through
`parse_bool`. -/
def resolveUseSchemaLabel (use_schema_label : String) : Except PyError Bool :=
  if use_schema_label = "None" then Except.ok true
  else parse_bool use_schema_label

/-- The `if not table_manipulation: table_manipulation = "replace"` default of
routes.py lines 478-479; the falsy values are None and the empty string. -/
def defaultTableManipulation (table_manipulation : Option String) : String :=
  match table_manipulation with
  | none => "replace"
  | some s => if s = "" then "replace" else s

/-- The `if not manifest_record_type: ... = "table_file_and_entities"` default
of routes.py lines 481-482; the falsy values are None and the empty string. -/
def defaultManifestRecordType (manifest_record_type : Option String) :
    String :=
  match manifest_record_type with
  | none => "table_file_and_entities"
  | some s => if s = "" then "table_file_and_entities" else s

/-- Arguments handed to the external `submit_metadata_manifest` collaborator
by `submit_manifest_route` (routes.py lines 489-498). -/
structure SubmitArgs where
  dataset_id : String
  restrict_rules : Bool
  access_token : String
  use_schema_label : Bool
  table_manipulation : String
  manifest_record_type : String
  validate_component : Option String
deriving DecidableEq, Repr

/-- `submit_manifest_route` (routes.py lines 452-500), up to the call of the
external submission collaborator: JSON normalization and config loading are
external; the route parses `restrict_rules` and `use_schema_label` from their
request strings, applies the falsy defaults to `table_manipulation` and
`manifest_record_type`, and maps the `data_type` sentinel "None" to None. -/
def submit_manifest_route (manifest_record_type table_manipulation : Option String)
    (data_type : Option String)
    (dataset_id restrict_rules_str access_token use_schema_label_str : String) :
    Except PyError SubmitArgs := do
  let restrict_rules ← parse_bool restrict_rules_str
  let use_schema_label ← resolveUseSchemaLabel use_schema_label_str
  let tm := defaultTableManipulation table_manipulation
  let mrt := defaultManifestRecordType manifest_record_type
  let validate_component :=
    if data_type = some "None" then none else data_type
  Except.ok
    { dataset_id := dataset_id
      restrict_rules := restrict_rules
      access_token := access_token
      use_schema_label := use_schema_label
      table_manipulation := tm
      manifest_record_type := mrt
      validate_component := validate_component }

/-- A concrete schema graph engine used for evaluating the route at concrete
inputs: every schema has requiresComponent digraph nodes CompA, CompB. -/
def engAB : SchemaGraphEngine :=
  { requiresComponentNodes := fun _ => ["CompA", "CompB"] }

/-- A concrete generation request with a non-empty title, for title checks. -/
def mgCohort : ManifestGeneration :=
  { schema_url := "https://example.org/model.jsonld"
    access_token := ""
    asset_view := ""
    dataset_id := []
    data_type := ["Patient"]
    title := "Cohort1"
    output_format := "google_sheet"
    use_annotations := false }

/-- A concrete generation request with an empty title and google_sheet
output, matching the spec scenario. -/
def mgSheet : ManifestGeneration :=
  { schema_url := "https://example.org/model.jsonld"
    access_token := ""
    asset_view := ""
    dataset_id := []
    data_type := ["Patient"]
    title := ""
    output_format := "google_sheet"
    use_annotations := false }

/-- A concrete generation request with excel output and two data types. -/
def mgExcel : ManifestGeneration :=
  { schema_url := "https://example.org/model.jsonld"
    access_token := ""
    asset_view := ""
    dataset_id := []
    data_type := ["Patient", "Biospecimen"]
    title := ""
    output_format := "excel"
    use_annotations := false }

/-- A concrete validation engine returning fixed errors and warnings. -/
def engVal : MetadataModelEngine :=
  { validateModelManifest := fun _ _ _ _ => (["errA"], ["warnB"]) }

/-! Helper lemmas about the generation loop. -/

/-- With an empty `dataset_id` list the loop requests a fresh template
manifest for every component, in input order. -/
theorem collectOutputs_no_dataset (mg : ManifestGeneration) (k : Nat)
    (dts : List String) :
    collectOutputs mg [] k dts =
      Except.ok (dts.map
        (fun dt => createSingleManifest mg dt "" (getManifestTitle mg dt))) := by
  induction dts generalizing k with
  | nil => rfl
  | cons dt rest ih => simp [collectOutputs, ih, Except.map]

/-- With a non-empty `dataset_id` list long enough for the remaining
components, the loop pairs the component at offset `k + j` with the dataset id
at the same offset. -/
theorem collectOutputs_with_dataset (mg : ManifestGeneration)
    (dataset_id : List String) (hne : dataset_id ≠ []) :
    ∀ (dts : List String) (k : Nat), k + dts.length ≤ dataset_id.length →
      collectOutputs mg dataset_id k dts =
        Except.ok (List.zipWith
          (fun dt ds => createSingleManifest mg dt ds (getManifestTitle mg dt))
          dts (dataset_id.drop k)) := by
  intro dts
  induction dts with
  | nil => intro k _; simp [collectOutputs]
  | cons dt rest ih =>
    intro k hlen
    have hk : k < dataset_id.length := by
      simp only [List.length_cons] at hlen; omega
    have hget : dataset_id[k]? = some dataset_id[k] :=
      List.getElem?_eq_getElem hk
    have hrest : (k + 1) + rest.length ≤ dataset_id.length := by
      simp only [List.length_cons] at hlen; omega
    rw [List.drop_eq_getElem_cons hk, List.zipWith_cons_cons]
    simp only [collectOutputs, if_neg hne, hget, ih (k + 1) hrest, Except.map]

/-- C1: at a request with one dataset id and two data types (the documented
length-mismatch case), `get_manifests_route` raises the TypeError from the
mis-called `_check_dataset_match_datatype_`, not the ValueError that the claim
and the route docstring describe, and no artifact is produced. -/
theorem c1_mismatch_raises_type_error_not_value_error :
    get_manifests_route engAB "https://example.org/model.jsonld" "google_sheet"
        "" false ["syn1"] ["Patient", "Biospecimen"] "" "" =
      Except.error (PyError.typeError checkCallArityMsg) := by rfl

/-- C2: at a request with data_type ["all manifests"] and a non-empty dataset
id list, `get_manifests_route` raises the TypeError from the mis-called
`_check_dataset_match_datatype_` before the all-manifests guard runs, not the
ValueError that the claim and the route docstring describe. -/
theorem c2_all_manifests_with_dataset_raises_type_error :
    get_manifests_route engAB "https://example.org/model.jsonld" "google_sheet"
        "" false ["syn1"] ["all manifests"] "" "" =
      Except.error (PyError.typeError checkCallArityMsg) := by rfl

/-- C9: for every call of `get_manifests_route` with a non-empty dataset_id
list — whatever the data types, output format, or the relative lengths — the
two-positional-argument call of `_check_dataset_match_datatype_` raises
TypeError before any artifact is generated, so the existing-manifest retrieval
path is unreachable through this entry point. -/
theorem c9_nonempty_dataset_id_always_type_error (eng : SchemaGraphEngine)
    (schema_url output_format access_token : String) (use_annotations : Bool)
    (d : String) (ds data_type : List String) (asset_view title : String) :
    get_manifests_route eng schema_url output_format access_token
        use_annotations (d :: ds) data_type asset_view title =
      Except.error (PyError.typeError checkCallArityMsg) := by rfl

/-- C10: for every call of `get_manifests_route` with an empty data_type list
and an empty dataset_id list, the unguarded `data_type[0]` raises IndexError
before any artifact is produced; the route never returns an empty artifact
collection. -/
theorem c10_empty_data_type_raises_index_error (eng : SchemaGraphEngine)
    (schema_url output_format access_token : String) (use_annotations : Bool)
    (asset_view title : String) :
    get_manifests_route eng schema_url output_format access_token
        use_annotations [] [] asset_view title =
      Except.error PyError.indexError := by rfl

/-- C3: with excel output and more than one component,
`generate_manifest_and_collect_outputs` produces exactly one artifact, built
from the first component in input order and paired with the first dataset id
when dataset ids are present, records a non-empty list of advisory warnings,
and does not abort. -/
theorem c3_excel_uses_first_component_only (mg : ManifestGeneration)
    (dt0 dt1 : String) (rest dataset_id : List String)
    (hfmt : mg.output_format = "excel") :
    ∃ warns : List String,
      generate_manifest_and_collect_outputs mg (dt0 :: dt1 :: rest)
          dataset_id =
        Except.ok (GenOutput.single (createSingleManifest mg dt0
          (dataset_id.headD "") (getManifestTitle mg dt0)), warns)
      ∧ warns ≠ [] := by
  have hlen : 1 < (dt0 :: dt1 :: rest).length := by
    simp only [List.length_cons]; omega
  cases dataset_id with
  | nil =>
    refine ⟨[warnExcelMultiDataType (getManifestTitle mg dt0)], ?_, by simp⟩
    simp [generate_manifest_and_collect_outputs, hfmt, hlen]
  | cons ds0 dss =>
    refine ⟨[warnExcelMultiDataType (getManifestTitle mg dt0),
      warnExcelDatasetId ds0 (getManifestTitle mg dt0)], ?_, by simp⟩
    simp [generate_manifest_and_collect_outputs, hfmt, hlen]

/-- C3 witness: the theorem applied to the concrete excel request `mgExcel`
with components Patient, Biospecimen and dataset ids ["syn1"]. -/
theorem c3_excel_uses_first_component_only_witness :
    mgExcel.output_format = "excel"
    ∧ ∃ warns : List String,
      generate_manifest_and_collect_outputs mgExcel ["Patient", "Biospecimen"]
          ["syn1"] =
        Except.ok (GenOutput.single (createSingleManifest mgExcel "Patient"
          ((["syn1"] : List String).headD "")
          (getManifestTitle mgExcel "Patient")), warns)
      ∧ warns ≠ [] :=
  ⟨rfl, c3_excel_uses_first_component_only mgExcel "Patient" "Biospecimen" []
    ["syn1"] rfl⟩

/-- C4: with google_sheet or dataframe output and a dataset id list that is
either empty or of the same length as the component list,
`generate_manifest_and_collect_outputs` returns one artifact per component in
input order: the component at position i is paired with the dataset id at
position i when the dataset id list is non-empty, and with a fresh template
request (empty dataset id) when it is empty. -/
theorem c4_sheet_or_dataframe_one_artifact_per_component
    (mg : ManifestGeneration) (data_type_lst dataset_id : List String)
    (hfmt : mg.output_format = "google_sheet"
      ∨ mg.output_format = "dataframe")
    (hlen : dataset_id = [] ∨ dataset_id.length = data_type_lst.length) :
    ∃ arts : List Artifact,
      generate_manifest_and_collect_outputs mg data_type_lst dataset_id =
        Except.ok (GenOutput.many arts, [])
      ∧ arts.length = data_type_lst.length
      ∧ arts = (if dataset_id = [] then
            data_type_lst.map
              (fun dt => createSingleManifest mg dt "" (getManifestTitle mg dt))
          else
            List.zipWith
              (fun dt ds => createSingleManifest mg dt ds (getManifestTitle mg dt))
              data_type_lst dataset_id) := by
  have hexcel : ¬ mg.output_format = "excel" := by
    rcases hfmt with h | h <;> rw [h] <;> decide
  rcases Decidable.em (dataset_id = []) with hds | hds
  · subst hds
    refine ⟨data_type_lst.map
      (fun dt => createSingleManifest mg dt "" (getManifestTitle mg dt)),
      ?_, by simp, by simp⟩
    simp [generate_manifest_and_collect_outputs, hexcel,
      collectOutputs_no_dataset, Except.map]
  · have hlen2 : dataset_id.length = data_type_lst.length :=
      hlen.resolve_left hds
    refine ⟨List.zipWith
      (fun dt ds => createSingleManifest mg dt ds (getManifestTitle mg dt))
      data_type_lst dataset_id, ?_, ?_, by simp [hds]⟩
    · have hloop := collectOutputs_with_dataset mg dataset_id hds
        data_type_lst 0 (by omega)
      simp only [List.drop_zero] at hloop
      simp [generate_manifest_and_collect_outputs, hexcel, hloop, Except.map]
    · simp [List.length_zipWith, hlen2]

/-- C4 witness: the theorem applied to the concrete google_sheet request
`mgSheet` with the single component Patient and no dataset ids (the spec
scenario); additionally, the artifact produced there carries the title
Example.Patient.manifest. -/
theorem c4_sheet_or_dataframe_witness :
    (mgSheet.output_format = "google_sheet"
      ∨ mgSheet.output_format = "dataframe")
    ∧ (([] : List String) = []
      ∨ ([] : List String).length = (["Patient"] : List String).length)
    ∧ (∃ arts : List Artifact,
        generate_manifest_and_collect_outputs mgSheet ["Patient"] [] =
          Except.ok (GenOutput.many arts, [])
        ∧ arts.length = (["Patient"] : List String).length
        ∧ arts = (if ([] : List String) = [] then
              (["Patient"] : List String).map
                (fun dt => createSingleManifest mgSheet dt ""
                  (getManifestTitle mgSheet dt))
            else
              List.zipWith
                (fun dt ds => createSingleManifest mgSheet dt ds
                  (getManifestTitle mgSheet dt))
                ["Patient"] []))
    ∧ getManifestTitle mgSheet "Patient" = "Example.Patient.manifest" :=
  ⟨Or.inl rfl, Or.inl rfl,
    c4_sheet_or_dataframe_one_artifact_per_component mgSheet ["Patient"] []
      (Or.inl rfl) (Or.inl rfl), by decide⟩

/-- C5: the derived manifest title is `{title}.{component}.manifest` when a
non-empty title was supplied and `Example.{component}.manifest` otherwise; in
particular title Cohort1 with component Patient yields exactly
Cohort1.Patient.manifest. -/
theorem c5_manifest_title_derivation (mg : ManifestGeneration) (c : String) :
    (mg.title ≠ "" → getManifestTitle mg c = mg.title ++ "." ++ c ++ ".manifest")
    ∧ (mg.title = "" → getManifestTitle mg c = "Example." ++ c ++ ".manifest")
    ∧ getManifestTitle mgCohort "Patient" = "Cohort1.Patient.manifest" := by
  refine ⟨fun h => ?_, fun h => ?_, by decide⟩
  · simp [getManifestTitle, h]
  · simp [getManifestTitle, h]

/-- C5 witness: the theorem applied to the concrete request `mgCohort`
(title Cohort1) and the component Patient. -/
theorem c5_manifest_title_derivation_witness :
    mgCohort.title ≠ ""
    ∧ getManifestTitle mgCohort "Patient" =
        mgCohort.title ++ "." ++ "Patient" ++ ".manifest" :=
  ⟨by decide, (c5_manifest_title_derivation mgCohort "Patient").1 (by decide)⟩

/-- C6 counterexample: the list ["all manifests", "Patient"] has a further
element after "all manifests", so by the claim it should be passed through
unchanged, yet the code expands it to the requiresComponent digraph nodes. -/
theorem c6_expansion_counterexample :
    expandComponents engAB "https://example.org/model.jsonld"
        ["all manifests", "Patient"] = Except.ok ["CompA", "CompB"]
    ∧ expandComponents engAB "https://example.org/model.jsonld"
        ["all manifests", "Patient"] ≠
      Except.ok ["all manifests", "Patient"] :=
  ⟨rfl, fun h => absurd (Except.ok.inj h) (by decide)⟩

/-- C6 amended: for every non-empty data_type list, the component list is the
node list of the requiresComponent digraph exactly when the FIRST element is
"all manifests" (even when further elements follow), and is the data_type
list passed through unchanged otherwise. -/
theorem c6_expansion_keyed_on_first_element (eng : SchemaGraphEngine)
    (schema_url : String) (data_type : List String) (h : data_type ≠ []) :
    expandComponents eng schema_url data_type =
      Except.ok (if data_type.head? = some "all manifests" then
          eng.requiresComponentNodes schema_url
        else data_type) := by
  cases data_type with
  | nil => exact absurd rfl h
  | cons dt0 rest =>
    simp only [expandComponents, List.head?_cons, Option.some.injEq]
    by_cases hdt : dt0 = "all manifests"
    · simp [hdt]
    · simp [hdt]

/-- C6 amended witness: the theorem applied to the concrete engine `engAB`
and the list ["all manifests", "Patient"]. -/
theorem c6_expansion_keyed_on_first_element_witness :
    (["all manifests", "Patient"] : List String) ≠ []
    ∧ expandComponents engAB "https://example.org/model.jsonld"
        ["all manifests", "Patient"] =
      Except.ok
        (if (["all manifests", "Patient"] : List String).head? =
            some "all manifests" then
          engAB.requiresComponentNodes "https://example.org/model.jsonld"
        else ["all manifests", "Patient"]) :=
  ⟨by decide, c6_expansion_keyed_on_first_element engAB
    "https://example.org/model.jsonld" ["all manifests", "Patient"]
    (by decide)⟩

/-- C7: for every manifest that normalizes successfully,
`validate_manifest_route` never raises for validation rule failures: it
returns (as a successful result) a record with exactly the fields errors and
warnings holding the validator's structured results, and an unspecified or
falsy restrict_rules is defaulted to False before validation. -/
theorem c7_validate_route_structured_results (eng : MetadataModelEngine)
    (schema_url data_type temp_path : String) (restrict_rules : Option Bool) :
    validate_manifest_route eng schema_url data_type restrict_rules
        (Except.ok temp_path) =
      Except.ok
        { errors := (eng.validateModelManifest schema_url temp_path data_type
            (restrict_rules.getD false)).1
          warnings := (eng.validateModelManifest schema_url temp_path data_type
            (restrict_rules.getD false)).2 } := by
  cases restrict_rules <;> rfl

/-- C8: in `submit_manifest_route`, an unspecified (falsy)
manifest_record_type defaults to table_file_and_entities and an unspecified
table_manipulation defaults to replace; use_schema_label bypasses boolean
parsing and becomes True exactly on the literal sentinel string "None", and is
otherwise parsed by `parse_bool`, which yields True when the lowercased string
starts with t, False when it starts with f, and raises ValueError
otherwise. -/
theorem c8_submit_route_defaults_and_bool_parsing (s : String) :
    defaultManifestRecordType none = "table_file_and_entities"
    ∧ defaultManifestRecordType (some "") = "table_file_and_entities"
    ∧ defaultTableManipulation none = "replace"
    ∧ defaultTableManipulation (some "") = "replace"
    ∧ resolveUseSchemaLabel "None" = Except.ok true
    ∧ (s ≠ "None" → resolveUseSchemaLabel s = parse_bool s)
    ∧ ((pyLower s).head? = some 't' → parse_bool s = Except.ok true)
    ∧ ((pyLower s).head? = some 'f' → parse_bool s = Except.ok false)
    ∧ ((pyLower s).head? ≠ some 't' → (pyLower s).head? ≠ some 'f' →
        parse_bool s = Except.error (PyError.valueError parseBoolErrorMsg))
    ∧ (∀ (dataset_id access_token : String) (data_type : Option String),
        submit_manifest_route none none data_type dataset_id "true"
            access_token "None" =
          Except.ok
            { dataset_id := dataset_id
              restrict_rules := true
              access_token := access_token
              use_schema_label := true
              table_manipulation := "replace"
              manifest_record_type := "table_file_and_entities"
              validate_component :=
                if data_type = some "None" then none else data_type }) := by
  refine ⟨rfl, rfl, rfl, rfl, rfl, fun h => ?_, fun h => ?_, fun h => ?_,
    fun h1 h2 => ?_, fun dsid tok dt => rfl⟩
  · simp [resolveUseSchemaLabel, h]
  · cases hc : pyLower s with
    | nil => rw [hc] at h; cases h
    | cons c cs =>
      rw [hc] at h
      simp only [List.head?_cons, Option.some.injEq] at h
      simp [parse_bool, hc, h]
  · cases hc : pyLower s with
    | nil => rw [hc] at h; cases h
    | cons c cs =>
      rw [hc] at h
      simp only [List.head?_cons, Option.some.injEq] at h
      subst h
      simp [parse_bool, hc]
  · cases hc : pyLower s with
    | nil => simp [parse_bool, hc]
    | cons c cs =>
      rw [hc] at h1 h2
      simp only [List.head?_cons, Ne, Option.some.injEq] at h1 h2
      simp [parse_bool, hc, h1, h2]

/-- C8 witness: the theorem applied at the concrete string "maybe", whose
lowercase form starts with neither t nor f: it is not the sentinel, so it is
parsed by `parse_bool`, which raises ValueError. -/
theorem c8_submit_route_defaults_and_bool_parsing_witness :
    (("maybe" : String) ≠ "None"
      ∧ resolveUseSchemaLabel "maybe" = parse_bool "maybe")
    ∧ ((pyLower "maybe").head? ≠ some 't'
      ∧ (pyLower "maybe").head? ≠ some 'f'
      ∧ parse_bool "maybe" =
          Except.error (PyError.valueError parseBoolErrorMsg)) :=
  ⟨⟨by decide, (c8_submit_route_defaults_and_bool_parsing "maybe").2.2.2.2.2.1
      (by decide)⟩,
   by decide, by decide,
   (c8_submit_route_defaults_and_bool_parsing
      "maybe").2.2.2.2.2.2.2.2.1 (by decide) (by decide)⟩
